import Mathlib

/-!
Verification of the flexbar League-of-Legends plugin core services
(`KeyService`, `StateManager`, `LoLDataService`) against their
natural-language specification.  The JavaScript services are shallowly
embedded: JS `Map`s become association lists, timer callbacks become
explicit step functions taking the current time, and `Date.now()` becomes
an explicit `now : Nat` argument.  Event emission is modelled by an
append-only event log inside each service state.
-/

namespace Spec2Proof

/-! ### Association lists (shallow embedding of JS `Map`) -/

/-- Lookup in an association list (JS `Map.prototype.get`; `none` = `undefined`). -/
def lookupA {α β : Type} [DecidableEq α] : List (α × β) → α → Option β
  | [], _ => none
  | (k, v) :: rest, key => if k = key then some v else lookupA rest key

/-- Insert or replace in an association list (JS `Map.prototype.set`). -/
def setA {α β : Type} [DecidableEq α] : List (α × β) → α → β → List (α × β)
  | [], key, v => [(key, v)]
  | (k, w) :: rest, key, v =>
    if k = key then (key, v) :: rest else (k, w) :: setA rest key v

/-- Remove a key from an association list (JS `Map.prototype.delete`). -/
def removeA {α β : Type} [DecidableEq α] : List (α × β) → α → List (α × β)
  | [], _ => []
  | (k, w) :: rest, key =>
    if k = key then removeA rest key else (k, w) :: removeA rest key

/-! ### JS values and truthiness (used by `StateManager` preferences) -/

/-- A JavaScript value as far as preference storage is concerned. -/
inductive JSValue where
  | vUndefined : JSValue
  | vNull : JSValue
  | vBool (b : Bool) : JSValue
  | vNum (n : Int) : JSValue
  | vStr (s : String) : JSValue
deriving DecidableEq

/-- JS truthiness: `undefined`, `null`, `false`, `0` and `""` are falsy. -/
def truthy : JSValue → Bool
  | .vUndefined => false
  | .vNull => false
  | .vBool b => b
  | .vNum n => n != 0
  | .vStr s => s != ""

/-! ### StateManager (src/src/services/StateManager.js) -/

/-- A cache entry as built by `StateManager.setCache`:
`{ data, timestamp, expiry }`, where `expiry = timestamp + ttl` or `null`. -/
structure CacheEntry where
  data : String
  timestamp : Nat
  expiry : Option Nat
deriving DecidableEq

/-- The `metadata` block of the persisted state. -/
structure SMMetadata where
  version : String
  created : Nat
  lastSave : Option Nat
deriving DecidableEq

/-- In-memory state of `StateManager` (`this.state`).  Key states and
connection states carry abstract string payloads; JS `Map`s are
association lists keyed by strings. -/
structure SMState where
  keys : List (String × String)
  connections : List (String × String)
  preferences : List (String × JSValue)
  cache : List (String × CacheEntry)
  metadata : SMMetadata
deriving DecidableEq

/-- `maxCacheAge` option default (5 minutes, in ms). -/
def maxCacheAge : Nat := 300000

/-- The JSON document written by `StateManager.saveState` (Maps converted
to plain objects; structurally identical to the in-memory state since all
keys are strings). -/
structure PersistedFile where
  keys : List (String × String)
  connections : List (String × String)
  preferences : List (String × JSValue)
  cache : List (String × CacheEntry)
  metadata : SMMetadata
deriving DecidableEq

/-- `StateManager.saveState`: serializes the state (it is a no-op when the
dirty flag is clear, hence the `Option`); `metadata.lastSave` is set to the
save time. -/
def saveState (now : Nat) (isDirty : Bool) (s : SMState) : Option PersistedFile :=
  if isDirty then
    some { keys := s.keys
           connections := s.connections
           preferences := s.preferences
           cache := s.cache
           metadata := { s.metadata with lastSave := some now } }
  else
    none

/-- `StateManager.loadState` applied to a successfully parsed file: if the
file's `metadata.version` is truthy, each section replaces the in-memory
one, and cache entries are kept only when their `timestamp` is truthy and
the entry is younger than `maxCacheAge` (`(now - value.timestamp) <
this.options.maxCacheAge`). -/
def loadState (now : Nat) (f : PersistedFile) (s : SMState) : SMState :=
  if f.metadata.version ≠ "" then
    { keys := f.keys
      connections := f.connections
      preferences := f.preferences
      cache := f.cache.filter
        (fun kv => kv.2.timestamp != 0 && decide (now - kv.2.timestamp < maxCacheAge))
      metadata := f.metadata }
  else
    s

/-- `StateManager.setCache`: stores `{data, timestamp := now, expiry := now + ttl}`. -/
def setCache (now : Nat) (key : String) (data : String) (ttl : Option Nat)
    (s : SMState) : SMState :=
  { s with cache := setA s.cache key ⟨data, now, ttl.map (fun t => now + t)⟩ }

/-- `StateManager.getPreference`: `this.state.preferences.get(key) || defaultValue`;
a missing key reads as `undefined`, which is falsy. -/
def getPreference (s : SMState) (key : String) (defaultValue : JSValue) : JSValue :=
  let v := (lookupA s.preferences key).getD JSValue.vUndefined
  if truthy v then v else defaultValue

/-! ### KeyService (src/src/services/KeyService.js)

Strings handled by `KeyService` (serial numbers, key uids, composite key
ids) are embedded as `List Char`, so that the JS `split('-')` /
`startsWith` logic is fully computable and provable. -/

/-- Embedded JS string. -/
abbrev Str := List Char

/-- The composite widget id built by `registerKeys` / `updateKey`:
`` `${serialNumber}-${key.uid}` ``. -/
def keyIdOf (serialNumber : Str) (keyUid : Str) : Str :=
  serialNumber ++ '-' :: keyUid

/-- JS `String.prototype.split('-')`: splits on every dash, keeping empty
chunks (`"".split('-') = [""]`). -/
def splitDash : Str → List Str
  | [] => [[]]
  | c :: rest =>
    match splitDash rest with
    | [] => []
    | chunk :: chunks =>
      if c = '-' then [] :: chunk :: chunks else (c :: chunk) :: chunks

/-- The destructuring `const [serialNumber, keyUid] = keyId.split('-')`
used by `executeRender` and `renderConnectionState`; a missing component
is JS `undefined`, i.e. `none`. -/
def decodeKeyId (keyId : Str) : Option Str × Option Str :=
  match splitDash keyId with
  | a :: b :: _ => (some a, some b)
  | [a] => (some a, none)
  | [] => (none, none)

/-- JS `keyId.startsWith(serialNumber + '-')` as used by
`handleDeviceDisconnection`; `startsWithL p l` is true when `p` is an
initial segment of `l`. -/
def startsWithL : Str → Str → Bool
  | [], _ => true
  | _ :: _, [] => false
  | p :: ps, c :: cs => p = c && startsWithL ps cs

/-- JS `String.prototype.includes`: `hasSub needle hay` is true when
`needle` occurs contiguously inside `hay`. -/
def hasSub (needle : Str) : Str → Bool
  | [] => decide (needle = [])
  | c :: rest => startsWithL needle (c :: rest) || hasSub needle rest

/-- The `not alive` / `not connected` terminal-error pattern match of
`handleKeyError` (`error.message.includes(...)`). -/
def isTerminalMsg (msg : Str) : Bool :=
  hasSub "not alive".toList msg || hasSub "not connected".toList msg

/-- Widget lifecycle state (`keyData.state`). -/
inductive LifeState where
  | inactive : LifeState
  | active : LifeState
  | dead : LifeState
  | failed : LifeState
deriving DecidableEq

/-- One entry of `this.activeKeys` (the key's static `config` is carried
only as the registered uid; canvas/presentation fields are out of scope). -/
structure KeyData where
  serialNumber : Str
  keyUid : Str
  state : LifeState
  lastUpdate : Option Nat
  retryCount : Nat
deriving DecidableEq

/-- One entry of `this.renderQueue`: `fireAt = some t` when a throttle
timeout is pending (will execute at time `t`), `none` for the task object
left in the queue after an immediate execution (its `timeout` field is
`null`, so it can never fire). -/
structure PendingTask where
  fireAt : Option Nat
  payload : Nat
deriving DecidableEq

/-- Events emitted by `KeyService`. -/
inductive KSEvent where
  | deviceConnected (serialNumber : Str) : KSEvent
  | deviceDisconnected (serialNumber : Str) : KSEvent
  | keyRendered (serialNumber : Option Str) (keyUid : Option Str) : KSEvent
  | keyError (serialNumber : Option Str) (keyUid : Option Str) : KSEvent
deriving DecidableEq

/-- `this.options` of `KeyService` (all in ms). -/
structure KSOptions where
  throttleInterval : Nat
  maxRetries : Nat
  retryDelay : Nat
  cleanupDelay : Nat
deriving DecidableEq

/-- The constructor defaults of `KeyService`. -/
def defaultKSOptions : KSOptions :=
  { throttleInterval := 100, maxRetries := 3, retryDelay := 1000, cleanupDelay := 5000 }

/-- Mutable state of a `KeyService` instance.  Render payloads are
abstracted as `Nat` (the render-data object construction in
`prepareRenderData` is presentation detail).  `renders` is a ghost log of
executed draw calls `(time, keyId, payload)`; `events` is the emitted
event log, both chronological. -/
structure KSState where
  activeKeys : List (Str × KeyData)
  renderQueue : List (Str × PendingTask)
  lastRenderTime : List (Str × Nat)
  errorCounts : List (Str × Nat)
  keyStates : List (Str × Nat)
  connectedDevices : List Str
  renders : List (Nat × Str × Nat)
  events : List KSEvent
deriving DecidableEq

/-- `KeyService.isThrottled`. -/
def isThrottled (opts : KSOptions) (now : Nat) (keyId : Str) (s : KSState) : Bool :=
  match lookupA s.lastRenderTime keyId with
  | none => false
  | some lastRender => decide (now - lastRender < opts.throttleInterval)

/-- `KeyService.getThrottleDelay` (`Math.max(0, interval - (now - last))`,
which is exactly truncated `Nat` subtraction). -/
def getThrottleDelay (opts : KSOptions) (now : Nat) (keyId : Str) (s : KSState) : Nat :=
  match lookupA s.lastRenderTime keyId with
  | none => 0
  | some lastRender => opts.throttleInterval - (now - lastRender)

/-- `KeyService.executeRender`.  `drawResult = none` models a successful
`plugin.draw`, `some msg` a draw call rejecting with error message `msg`
(the plugin instance is assumed set).  Returns whether the render
succeeded.  Note the timestamp is recorded *before* the draw call, and the
queue entry is deleted in the `finally` block either way. -/
def executeRender (drawResult : Option Str) (now : Nat) (keyId : Str) (payload : Nat)
    (s : KSState) : Bool × KSState :=
  let parts := decodeKeyId keyId
  let s1 := { s with lastRenderTime := setA s.lastRenderTime keyId now }
  match drawResult with
  | none =>
    let s2 := { s1 with
      renders := s1.renders ++ [(now, keyId, payload)]
      events := s1.events ++ [KSEvent.keyRendered parts.1 parts.2] }
    (true, { s2 with renderQueue := removeA s2.renderQueue keyId })
  | some _ =>
    let s2 := { s1 with events := s1.events ++ [KSEvent.keyError parts.1 parts.2] }
    (false, { s2 with renderQueue := removeA s2.renderQueue keyId })

/-- `KeyService.queueRender`.  Cancels any pending timeout for the key
(`clearTimeout`; the map entry itself is overwritten below).  If the
throttle delay is positive the task is scheduled via `setTimeout` at
`now + delay`; otherwise it executes immediately and the already-executed
task object (with a `null` timeout) is then stored in the queue.  On an
immediate draw failure the exception propagates before `renderQueue.set`
runs. -/
def queueRender (opts : KSOptions) (drawResult : Option Str) (now : Nat)
    (keyId : Str) (payload : Nat) (s : KSState) : Bool × KSState :=
  let delay := getThrottleDelay opts now keyId s
  if 0 < delay then
    (true, { s with renderQueue := setA s.renderQueue keyId ⟨some (now + delay), payload⟩ })
  else
    let r := executeRender drawResult now keyId payload s
    if r.1 then
      (true, { r.2 with renderQueue := setA r.2.renderQueue keyId ⟨none, payload⟩ })
    else
      (false, r.2)

/-- The `setTimeout` callback registered by `queueRender` firing: executes
the pending task at its scheduled time (the callback's own failure is an
unhandled rejection, so only the state effect matters). -/
def fireTimer (drawResult : Option Str) (keyId : Str) (s : KSState) : KSState :=
  match lookupA s.renderQueue keyId with
  | some task =>
    match task.fireAt with
    | some t => (executeRender drawResult t keyId task.payload s).2
    | none => s
  | none => s

/-- `KeyService.removeKey`: cancels any queued render and drops the key
from every tracking map. -/
def removeKey (keyId : Str) (s : KSState) : KSState :=
  { s with
    renderQueue := removeA s.renderQueue keyId
    activeKeys := removeA s.activeKeys keyId
    lastRenderTime := removeA s.lastRenderTime keyId
    errorCounts := removeA s.errorCounts keyId }

/-- `KeyService.handleKeyError`: bumps the per-key error count; a terminal
message marks the key `dead`; otherwise, while the count is at most
`maxRetries`, a retry (which replays the cached key state through
`updateKey`) is scheduled after `retryDelay * errorCount` ms — the
returned `Option Nat` is that scheduled delay; past `maxRetries` the key
is marked `failed` and nothing is scheduled. -/
def handleKeyError (opts : KSOptions) (keyId : Str) (msg : Str)
    (s : KSState) : KSState × Option Nat :=
  let errorCount := (lookupA s.errorCounts keyId).getD 0 + 1
  let s1 := { s with errorCounts := setA s.errorCounts keyId errorCount }
  match lookupA s1.activeKeys keyId with
  | none => (s1, none)
  | some kd =>
    if isTerminalMsg msg then
      ({ s1 with activeKeys := setA s1.activeKeys keyId { kd with state := LifeState.dead } }, none)
    else if errorCount ≤ opts.maxRetries then
      (s1, some (opts.retryDelay * errorCount))
    else
      ({ s1 with activeKeys := setA s1.activeKeys keyId { kd with state := LifeState.failed } }, none)

/-- `KeyService.updateKey`: drops the update when the device is not
connected, the key is unregistered, or the key is throttled; otherwise
stores the key state, queues the render, and on success resets the error
bookkeeping.  A draw failure is caught and routed to `handleKeyError`
(whose scheduled retry delay is discarded here, matching the fire-and-forget
`setTimeout`). -/
def updateKey (opts : KSOptions) (drawResult : Option Str) (now : Nat)
    (serialNumber : Str) (keyUid : Str) (data : Nat) (s : KSState) : Bool × KSState :=
  let keyId := keyIdOf serialNumber keyUid
  if serialNumber ∈ s.connectedDevices then
    match lookupA s.activeKeys keyId with
    | none => (false, s)
    | some kd =>
      if isThrottled opts now keyId s then
        (false, s)
      else
        let s1 := { s with keyStates := setA s.keyStates keyUid data }
        let r := queueRender opts drawResult now keyId data s1
        if r.1 then
          (true, { r.2 with
            activeKeys := setA r.2.activeKeys keyId
              { kd with state := LifeState.active, lastUpdate := some now, retryCount := 0 }
            errorCounts := removeA r.2.errorCounts keyId })
        else
          (false, (handleKeyError opts keyId ((drawResult).getD []) r.2).1)
  else
    (false, s)

/-- `KeyService.performCleanup`: removes every key whose lifecycle state is
`dead` or `failed`, then purges render timestamps with no surviving key or
older than 5 minutes, and error counts with no surviving key. -/
def performCleanup (now : Nat) (s : KSState) : KSState :=
  let keysToRemove :=
    (s.activeKeys.filter
      (fun kv => kv.2.state = LifeState.dead ∨ kv.2.state = LifeState.failed)).map
      (fun kv => kv.1)
  let s1 := keysToRemove.foldl (fun t k => removeKey k t) s
  let freshTimes := s1.lastRenderTime.filter
    (fun kv => (lookupA s1.activeKeys kv.1).isSome && decide (now - kv.2 ≤ 300000))
  let s2 := { s1 with lastRenderTime := freshTimes }
  let liveCounts := s2.errorCounts.filter (fun kv => (lookupA s2.activeKeys kv.1).isSome)
  { s2 with errorCounts := liveCounts }

/-- A device object in a `device.status` report; `serialNumber = none`
models a missing field (the JS code also treats an empty string as
missing, via truthiness). -/
structure Device where
  serialNumber : Option Str
deriving DecidableEq

/-- Set-insert on the list model of `this.connectedDevices` (a JS `Set`). -/
def addSet (l : List Str) (x : Str) : List Str :=
  if x ∈ l then l else l ++ [x]

/-- First phase of `handleDeviceStatus`: walk the report (a non-array
report contributes nothing), collect truthy serial numbers into the
`currentDevices` set, and emit `deviceConnected` for serials not in the
*old* connected set. -/
def extractDevices (oldDevices : List Str) : Option (List Device) → List Str × List KSEvent
  | none => ([], [])
  | some devices =>
    devices.foldl
      (fun acc device =>
        match device.serialNumber with
        | some sn =>
          if sn ≠ [] then
            (addSet acc.1 sn,
             if sn ∈ oldDevices then acc.2 else acc.2 ++ [KSEvent.deviceConnected sn])
          else acc
        | none => acc)
      ([], [])

/-- `KeyService.handleDeviceDisconnection`: removes every active key whose
id starts with `` `${serialNumber}-` `` and emits `deviceDisconnected`. -/
def handleDeviceDisconnection (serialNumber : Str) (s : KSState) : KSState :=
  let keysToRemove :=
    (s.activeKeys.filter (fun kv => startsWithL (serialNumber ++ ['-']) kv.1)).map
      (fun kv => kv.1)
  let s1 := keysToRemove.foldl (fun t k => removeKey k t) s
  { s1 with events := s1.events ++ [KSEvent.deviceDisconnected serialNumber] }

/-- `KeyService.handleDeviceStatus`: builds the new connected set from the
report, disconnects every previously connected device absent from it, and
installs the new set. -/
def handleDeviceStatus (report : Option (List Device)) (s : KSState) : KSState :=
  let extracted := extractDevices s.connectedDevices report
  let s1 := { s with events := s.events ++ extracted.2 }
  let s2 := s.connectedDevices.foldl
    (fun t d => if d ∈ extracted.1 then t else handleDeviceDisconnection d t) s1
  { s2 with connectedDevices := extracted.1 }

/-- A registered key's configuration (only the uid is relevant here). -/
structure KeyConfig where
  uid : Str
deriving DecidableEq

/-- `KeyService.registerKeys`: marks the device connected if it was not,
then records one `activeKeys` entry per key under id
`` `${serialNumber}-${key.uid}` ``. -/
def registerKeys (serialNumber : Str) (keys : List KeyConfig) (s : KSState) : KSState :=
  let s1 :=
    if serialNumber ∈ s.connectedDevices then s
    else { s with connectedDevices := s.connectedDevices ++ [serialNumber]
                  events := s.events ++ [KSEvent.deviceConnected serialNumber] }
  keys.foldl
    (fun t k =>
      let kd : KeyData := ⟨serialNumber, k.uid, LifeState.inactive, none, 0⟩
      { t with activeKeys := setA t.activeKeys (keyIdOf serialNumber k.uid) kd })
    s1

/-! ### LoLDataService (src/src/services/LoLDataService.js)

HTTP responses are supplied by explicit arguments: a single poll gets a
`Option String` response (`none` = request failed), the initial poll round
of `startEndpointPolling` an oracle `String → Option String` from endpoint
path to response.  Connection credentials (`port` / `password` / `baseURL`
/ `axios`) are abstracted into the single flag `hasAxios`, which is all the
control flow inspects.  Event timestamps are omitted. -/

/-- One entry of `this.options.endpointConfig`. -/
structure EndpointConfig where
  endpoint : String
  intervalMs : Nat
  logicalType : String
  suppressErrors : Bool
deriving DecidableEq

/-- The static endpoint list from the `LoLDataService` constructor. -/
def endpointConfig : List EndpointConfig :=
  [ ⟨"/lol-summoner/v1/current-summoner", 5000, "summoner", false⟩,
    ⟨"/lol-gameflow/v1/gameflow-phase", 2000, "gameflow", false⟩,
    ⟨"/lol-champ-select/v1/session", 1000, "champselect", true⟩,
    ⟨"/lol-ranked/v1/current-ranked-stats", 5000, "ranked", false⟩,
    ⟨"/lol-inventory/v1/wallet", 10000, "wallet", true⟩ ]

/-- The gameflow entry of `endpointConfig` (the designated game-phase
endpoint). -/
def gameflowConfig : EndpointConfig :=
  ⟨"/lol-gameflow/v1/gameflow-phase", 2000, "gameflow", false⟩

/-- Events emitted by `LoLDataService`. -/
inductive LoLEvent where
  | connectionChanged (connected : Bool) (reason : String) : LoLEvent
  | dataUpdated (logicalType : String) (data : String) : LoLEvent
  | gameStateChanged (phase : String) (previous : Option String) : LoLEvent
  | errorEmitted (endpoint : String) : LoLEvent
deriving DecidableEq

/-- Mutable state of a `LoLDataService` instance.  `endpointPollers` maps
endpoint path to the poll interval of its live timer; `dataCache` maps
logical type to `(data, timestamp)`; `attemptLog` is a ghost counter of
`attemptConnection` invocations; `events` is the chronological event
log. -/
structure LoLState where
  isConnected : Bool
  connectionAttempts : Nat
  hasAxios : Bool
  endpointPollers : List (String × Nat)
  dataCache : List (String × (String × Nat))
  lastKnownGameState : Option String
  attemptLog : Nat
  events : List LoLEvent
deriving DecidableEq

/-- `LoLDataService.setConnectionState`: flips the flag and emits
`connectionChanged` only when the value actually changed. -/
def setConnectionState (connected : Bool) (reason : String) (s : LoLState) : LoLState :=
  let wasConnected := s.isConnected
  let s1 := { s with isConnected := connected }
  if wasConnected ≠ connected then
    { s1 with events := s1.events ++ [LoLEvent.connectionChanged connected reason] }
  else
    s1

/-- `LoLDataService.stopEndpointPolling`: clears every poll interval. -/
def stopEndpointPolling (s : LoLState) : LoLState :=
  { s with endpointPollers := [] }

/-- `LoLDataService.resetConnectionDetails`: nulls port, password, baseURL
and the axios client. -/
def resetConnectionDetails (s : LoLState) : LoLState :=
  { s with hasAxios := false }

/-- `LoLDataService.handleGameStateChange`: records the phase and emits
`gameStateChanged` only when it differs from the previous one (`undefined`
on the first poll is `none`, which differs from any phase string). -/
def handleGameStateChange (currentState : String) (previousState : Option String)
    (s : LoLState) : LoLState :=
  if some currentState ≠ previousState then
    { s with lastKnownGameState := some currentState
             events := s.events ++ [LoLEvent.gameStateChanged currentState previousState] }
  else
    s

/-- `LoLDataService.handleEndpointPoll`: a no-op unless connected with a
live client; on a successful response caches `(data, now)` under the
endpoint's logical type, emits `dataUpdated`, and for the gameflow type
runs the game-state tracking against the previously cached payload; on a
failed response emits `error` unless the endpoint suppresses errors. -/
def handleEndpointPoll (config : EndpointConfig) (now : Nat) (response : Option String)
    (s : LoLState) : LoLState :=
  if s.isConnected && s.hasAxios then
    match response with
    | some data =>
      let previousData := lookupA s.dataCache config.logicalType
      let s1 := { s with dataCache := setA s.dataCache config.logicalType (data, now) }
      let s2 := { s1 with events := s1.events ++ [LoLEvent.dataUpdated config.logicalType data] }
      if config.logicalType = "gameflow" then
        handleGameStateChange data (previousData.map (fun p => p.1)) s2
      else
        s2
    | none =>
      if config.suppressErrors then s
      else { s with events := s.events ++ [LoLEvent.errorEmitted config.endpoint] }
  else
    s

/-- One step of `startEndpointPolling`: installs the endpoint's interval
timer, then immediately polls it once. -/
def pollOnce (oracle : String → Option String) (now : Nat) (t : LoLState)
    (config : EndpointConfig) : LoLState :=
  let t1 := { t with endpointPollers := setA t.endpointPollers config.endpoint config.intervalMs }
  handleEndpointPoll config now (oracle config.endpoint) t1

/-- `LoLDataService.startEndpointPolling`: installs one interval timer per
configured endpoint and immediately polls each once (responses supplied by
`oracle`). -/
def startEndpointPolling (oracle : String → Option String) (now : Nat)
    (s : LoLState) : LoLState :=
  endpointConfig.foldl (pollOnce oracle now) s

/-- `LoLDataService.attemptConnection`.  `outcome = true` models discovery,
client setup, validation and version fetch all succeeding: the connection
state flips to connected, polling starts, and the attempt counter resets.
`outcome = false` models any of those steps failing: the state is set
disconnected and the error rethrown (the returned `Bool`).  Either way an
attempt happened (`attemptLog`). -/
def attemptConnection (outcome : Bool) (oracle : String → Option String) (now : Nat)
    (s : LoLState) : Bool × LoLState :=
  let s0 := { s with attemptLog := s.attemptLog + 1 }
  if outcome then
    let s1 := { s0 with hasAxios := true }
    let s2 := setConnectionState true "Connected successfully" s1
    let s3 := startEndpointPolling oracle now s2
    (true, { s3 with connectionAttempts := 0 })
  else
    (false, setConnectionState false "connection failed" s0)

/-- `LoLDataService.handleDisconnection`: flips to disconnected, stops all
polling and discards the connection details. -/
def handleDisconnection (s : LoLState) : LoLState :=
  resetConnectionDetails (stopEndpointPolling
    (setConnectionState false "League process stopped" s))

/-- `LoLDataService.handleReconnection` (one invocation): bails out once
`connectionAttempts` has reached `maxReconnectAttempts`, otherwise bumps
the counter and attempts a connection; a failed attempt schedules another
invocation via `setTimeout` (modelled by calling this again). -/
def handleReconnection (maxReconnectAttempts : Nat) (outcome : Bool)
    (oracle : String → Option String) (now : Nat) (s : LoLState) : LoLState :=
  if maxReconnectAttempts ≤ s.connectionAttempts then
    s
  else
    let s1 := { s with connectionAttempts := s.connectionAttempts + 1 }
    (attemptConnection outcome oracle now s1).2

/-- `LoLDataService.handleProcessCheck`: one liveness-check tick.
`isRunning` is the result of `isLeagueProcessRunning`. -/
def handleProcessCheck (maxReconnectAttempts : Nat) (isRunning : Bool) (outcome : Bool)
    (oracle : String → Option String) (now : Nat) (s : LoLState) : LoLState :=
  if isRunning && !s.isConnected then
    handleReconnection maxReconnectAttempts outcome oracle now s
  else if !isRunning && s.isConnected then
    handleDisconnection s
  else
    s

/-- Fold a sequence of connection-state reports through
`setConnectionState` (the debounce point every report goes through). -/
def applyReports (reports : List Bool) (s : LoLState) : LoLState :=
  reports.foldl (fun t r => setConnectionState r "" t) s

/-- The number of actual changes of the connected flag along a report
sequence starting from `current`. -/
def countTransitions : Bool → List Bool → Nat
  | _, [] => 0
  | current, r :: rest => (if r ≠ current then 1 else 0) + countTransitions r rest

/-- Recognize a `connectionChanged` event. -/
def isConnEvent : LoLEvent → Bool
  | LoLEvent.connectionChanged _ _ => true
  | _ => false

/-- Recognize a `gameStateChanged` event. -/
def isGameEvent : LoLEvent → Bool
  | LoLEvent.gameStateChanged _ _ => true
  | _ => false

/-- Successive successful polls of the game-phase endpoint. -/
def pollPhases (phases : List String) (s : LoLState) : LoLState :=
  phases.foldl (fun t p => handleEndpointPoll gameflowConfig 0 (some p) t) s

/-! ### Remaining definitions: failure traces, report predicates, example states -/

/-- `n` consecutive transient draw failures for the same key: each
scheduled retry replays the key and fails again, invoking
`handleKeyError` anew.  Returns the final state and the list of scheduled
retry delays (`none` = no retry scheduled by that failure). -/
def iterateFailures (opts : KSOptions) (keyId msg : Str) :
    Nat → KSState → KSState × List (Option Nat)
  | 0, s => (s, [])
  | n + 1, s =>
    let r := handleKeyError opts keyId msg s
    let rest := iterateFailures opts keyId msg n r.1
    (rest.1, r.2 :: rest.2)

/-- A serial number is reported by a `device.status` payload when the
payload is an array containing a device whose `serialNumber` field is that
(truthy) string. -/
def reportedSerial : Option (List Device) → Str → Prop
  | none, _ => False
  | some devices, x => ∃ d ∈ devices, d.serialNumber = some x ∧ x ≠ []

/-- The empty `KeyService` state (fresh instance). -/
def emptyKS : KSState := ⟨[], [], [], [], [], [], [], []⟩

/-- Example device serial. -/
def sSerial : Str := ['S']

/-- Example key uid. -/
def kUid : Str := ['k']

/-- Example composite key id `"S-k"`. -/
def ksKeyId : Str := keyIdOf sSerial kUid

/-- Fresh service with device `S` connected and one key `S-k` registered. -/
def ksStart : KSState := registerKeys sSerial [⟨kUid⟩] emptyKS

/-- `ksStart` after a successful render of payload `1` at time 0. -/
def ks1 : KSState := (updateKey defaultKSOptions none 0 sSerial kUid 1 ksStart).2

/-- Example `StateManager` metadata. -/
def smMeta : SMMetadata := ⟨"1.0.0", 0, none⟩

/-- Example `StateManager` state: one widget state, one connection state,
one preference, and one cache entry written at t=100 with a 50 ms TTL
(so `expiry = 150`). -/
def smEx : SMState :=
  setCache 100 "rankData" "cachedData" (some 50)
    ⟨[("w1", "widgetState")], [("league", "connState")],
     [("pref1", JSValue.vStr "on")], [], smMeta⟩

/-- The file produced by saving `smEx` (dirty) at t=100. -/
def smFile : PersistedFile :=
  (saveState 100 true smEx).getD ⟨[], [], [], [], ⟨"", 0, none⟩⟩

/-- Example preference store with a falsy and a truthy stored value. -/
def smPrefEx : SMState :=
  ⟨[], [], [("enabled", JSValue.vBool false), ("mode", JSValue.vStr "fast")], [], smMeta⟩

/-- A fresh, empty `StateManager` state. -/
def smEmpty : SMState := ⟨[], [], [], [], smMeta⟩

/-- Connected `LoLDataService` with a live poller and a stale cached
champ-select payload. -/
def lolStale : LoLState :=
  ⟨true, 0, true, [("/lol-gameflow/v1/gameflow-phase", 2000)],
   [("champselect", ("staleChampSelect", 5))], some "ChampSelect", 0, []⟩

/-- Disconnected `LoLDataService` whose reconnection attempts are
exhausted (`connectionAttempts = 5 = maxReconnectAttempts` default). -/
def lolExhausted : LoLState := ⟨false, 5, false, [], [], none, 0, []⟩

/-- Freshly connected `LoLDataService` with an empty data cache. -/
def lolConnected : LoLState := ⟨true, 0, true, [], [], none, 0, []⟩

/-- Connected `LoLDataService` whose cached gameflow phase is already
`"ChampSelect"`. -/
def lolInChamp : LoLState :=
  ⟨true, 0, true, [], [("gameflow", ("ChampSelect", 7))], some "ChampSelect", 0, []⟩

/-! ### Association-list lemmas -/

theorem lookupA_setA_self {α β : Type} [DecidableEq α]
    (l : List (α × β)) (k : α) (v : β) : lookupA (setA l k v) k = some v := by
  induction l with
  | nil => simp [setA, lookupA]
  | cons hd tl ih =>
    obtain ⟨k', w⟩ := hd
    by_cases h : k' = k
    · simp [setA, h, lookupA]
    · simp [setA, h, lookupA, ih]

theorem lookupA_setA_ne {α β : Type} [DecidableEq α]
    (l : List (α × β)) (k k' : α) (v : β) (h : k ≠ k') :
    lookupA (setA l k v) k' = lookupA l k' := by
  induction l with
  | nil => simp [setA, lookupA, h]
  | cons hd tl ih =>
    obtain ⟨k0, w⟩ := hd
    by_cases h0 : k0 = k
    · subst h0
      simp [setA, lookupA, h]
    · simp [setA, h0, lookupA, ih]

theorem lookupA_removeA_self {α β : Type} [DecidableEq α]
    (l : List (α × β)) (k : α) : lookupA (removeA l k) k = none := by
  induction l with
  | nil => simp [removeA, lookupA]
  | cons hd tl ih =>
    obtain ⟨k0, w⟩ := hd
    by_cases h0 : k0 = k
    · simp [removeA, h0, ih]
    · simp [removeA, h0, lookupA, ih]

theorem lookupA_removeA_ne {α β : Type} [DecidableEq α]
    (l : List (α × β)) (k k' : α) (h : k ≠ k') :
    lookupA (removeA l k) k' = lookupA l k' := by
  induction l with
  | nil => simp [removeA]
  | cons hd tl ih =>
    obtain ⟨k0, w⟩ := hd
    by_cases h0 : k0 = k
    · subst h0
      simp [removeA, lookupA, h, Ne.symm h, ih]
    · simp [removeA, h0, lookupA, ih]

theorem lookupA_some_mem {α β : Type} [DecidableEq α]
    {l : List (α × β)} {k : α} {v : β} (h : lookupA l k = some v) : (k, v) ∈ l := by
  induction l with
  | nil => simp [lookupA] at h
  | cons hd tl ih =>
    obtain ⟨k0, w⟩ := hd
    by_cases h0 : k0 = k
    · subst h0
      simp [lookupA] at h
      simp [h]
    · simp [lookupA, h0] at h
      exact List.mem_cons_of_mem _ (ih h)

/-! ### C10: falsy preferences read as the default -/

/-- C10: for every preference key whose stored value is falsy (`false`,
`0`, `""`, `null`), `getPreference(key, defaultValue)` returns
`defaultValue` instead of the stored value — exactly as for an absent
key — and for truthy stored values it returns the stored value. -/
theorem C10_getPreference (s : SMState) (key : String) (defaultValue : JSValue) :
    (lookupA s.preferences key = none →
      getPreference s key defaultValue = defaultValue) ∧
    (∀ v, lookupA s.preferences key = some v → truthy v = false →
      getPreference s key defaultValue = defaultValue) ∧
    (∀ v, lookupA s.preferences key = some v → truthy v = true →
      getPreference s key defaultValue = v) := by
  refine ⟨fun h => ?_, fun v hv ht => ?_, fun v hv ht => ?_⟩
  · simp [getPreference, h, truthy]
  · simp [getPreference, hv, ht]
  · simp [getPreference, hv, ht]

/-- Witness for C10 at a concrete store: the stored falsy `enabled =
false` reads as the supplied default, the stored truthy `mode = "fast"`
reads as itself. -/
theorem C10_witness :
    (lookupA smPrefEx.preferences "enabled" = some (JSValue.vBool false) ∧
      getPreference smPrefEx "enabled" (JSValue.vStr "dflt") = JSValue.vStr "dflt") ∧
    (lookupA smPrefEx.preferences "mode" = some (JSValue.vStr "fast") ∧
      getPreference smPrefEx "mode" (JSValue.vStr "dflt") = JSValue.vStr "fast") :=
  ⟨⟨by decide,
    (C10_getPreference smPrefEx "enabled" (JSValue.vStr "dflt")).2.1
      (JSValue.vBool false) (by decide) (by decide)⟩,
   ⟨by decide,
    (C10_getPreference smPrefEx "mode" (JSValue.vStr "dflt")).2.2
      (JSValue.vStr "fast") (by decide) (by decide)⟩⟩

/-! ### C6: connectionChanged fires exactly once per actual change -/

/-- C6: folding any sequence of connection-state reports through
`setConnectionState` emits exactly one `connectionChanged` event per
actual change of the connected flag; repeated reports of the same state
emit nothing. -/
theorem C6_connectionChanged (s : LoLState) (reports : List Bool) :
    List.countP isConnEvent (applyReports reports s).events =
      List.countP isConnEvent s.events + countTransitions s.isConnected reports := by
  induction reports generalizing s with
  | nil => simp [applyReports, countTransitions]
  | cons r rest ih =>
    have hstep : applyReports (r :: rest) s = applyReports rest (setConnectionState r "" s) := rfl
    rw [hstep, ih]
    by_cases h : s.isConnected = r
    · have hset : setConnectionState r "" s = { s with isConnected := r } := by
        simp [setConnectionState, h]
      rw [hset]
      simp [countTransitions, h]
    · have hset : setConnectionState r "" s =
        { s with isConnected := r,
                 events := s.events ++ [LoLEvent.connectionChanged r ""] } := by
        simp [setConnectionState, h]
      rw [hset]
      simp only [countTransitions, List.countP_append]
      have hne : (r ≠ s.isConnected) := fun hh => h hh.symm
      simp [isConnEvent, hne]
      omega

/-! ### C9: key-id encode/decode round-trip -/

theorem splitDash_ne_nil (l : Str) : splitDash l ≠ [] := by
  induction l with
  | nil => simp [splitDash]
  | cons c rest ih =>
    obtain ⟨a, as, hsp⟩ := List.exists_cons_of_ne_nil ih
    simp only [splitDash]
    rw [hsp]
    by_cases hc : c = '-' <;> simp [hc]

theorem splitDash_no_dash {l : Str} (h : '-' ∉ l) : splitDash l = [l] := by
  induction l with
  | nil => rfl
  | cons c rest ih =>
    have hc : ¬(c = '-') := fun hcc => h (by simp [hcc])
    have hrest : '-' ∉ rest := fun hr => h (List.mem_cons_of_mem _ hr)
    simp [splitDash, ih hrest, hc]

theorem splitDash_append {xs : Str} (ys : Str) (h : '-' ∉ xs) :
    splitDash (xs ++ '-' :: ys) = xs :: splitDash ys := by
  induction xs with
  | nil =>
    simp only [List.nil_append, splitDash]
    cases hy : splitDash ys with
    | nil => exact absurd hy (splitDash_ne_nil ys)
    | cons a as => simp
  | cons x xs' ih =>
    have hx : ¬(x = '-') := fun hxx => h (by simp [hxx])
    have hxs : '-' ∉ xs' := fun hr => h (List.mem_cons_of_mem _ hr)
    simp only [List.cons_append, splitDash, List.append_eq]
    rw [ih hxs]
    simp [hx]

/-- C9 (amended): the widget id `serialNumber ++ "-" ++ keyUid` decoded by
splitting on `'-'` and taking the first two components recovers the
original pair whenever *both* the serial number *and* the key uid are
dash-free. -/
theorem C9_roundTrip (serialNumber keyUid : Str)
    (hs : '-' ∉ serialNumber) (hu : '-' ∉ keyUid) :
    decodeKeyId (keyIdOf serialNumber keyUid) = (some serialNumber, some keyUid) := by
  unfold keyIdOf decodeKeyId
  rw [splitDash_append keyUid hs, splitDash_no_dash hu]

/-- Counterexample to C9 as stated: with the dash-free serial `"S"` but a
key uid `"a-b"` containing a dash, decoding the encoded id yields uid
`"a"`, not the original `"a-b"` — so a dash-free serial alone does not
make the round-trip hold. -/
theorem C9_counterexample :
    ('-' ∉ sSerial) ∧
    decodeKeyId (keyIdOf sSerial ['a', '-', 'b']) = (some sSerial, some ['a']) ∧
    (['a'] : Str) ≠ ['a', '-', 'b'] := by decide

/-- Witness for C9 on the concrete id `"S-k"`. -/
theorem C9_witness :
    ('-' ∉ sSerial) ∧ ('-' ∉ kUid) ∧
    decodeKeyId (keyIdOf sSerial kUid) = (some sSerial, some kUid) :=
  ⟨by decide, by decide, C9_roundTrip sSerial kUid (by decide) (by decide)⟩

/-! ### C2: persistence round-trip -/

/-- C2 (amended): saving (with the dirty flag set) and reloading
reproduces the widget, connection and preference entries exactly; a cache
entry survives the reload iff its timestamp is truthy and its *age* at
load time is below `maxCacheAge` — the load filter does not consult the
entry's own TTL (`expiry`). -/
theorem C2_roundTrip (s s0 : SMState) (now1 now2 : Nat) (f : PersistedFile)
    (hsave : saveState now1 true s = some f)
    (hver : s.metadata.version ≠ "") :
    (loadState now2 f s0).keys = s.keys ∧
    (loadState now2 f s0).connections = s.connections ∧
    (loadState now2 f s0).preferences = s.preferences ∧
    (loadState now2 f s0).cache = s.cache.filter
      (fun kv => kv.2.timestamp != 0 && decide (now2 - kv.2.timestamp < maxCacheAge)) := by
  simp only [saveState, if_pos, Option.some.injEq] at hsave
  subst hsave
  simp [loadState, hver]

/-- Counterexample to C2 as stated: the cache entry `rankData` is written
at t=100 with TTL 50 (expiry 150).  Saved at t=100 and reloaded at t=200
its TTL has passed (150 < 200), yet the entry is still present after the
reload, because `loadState` filters by age against `maxCacheAge`
(200 - 100 < 300000), not by the entry's TTL. -/
theorem C2_counterexample :
    saveState 100 true smEx = some smFile ∧
    lookupA smFile.cache "rankData" = some ⟨"cachedData", 100, some 150⟩ ∧
    (150 : Nat) < 200 ∧
    lookupA (loadState 200 smFile smEmpty).cache "rankData" =
      some ⟨"cachedData", 100, some 150⟩ := by decide

/-- Witness for C2 on the concrete state `smEx` saved at t=100 and
reloaded at t=200. -/
theorem C2_witness :
    saveState 100 true smEx = some smFile ∧ smEx.metadata.version ≠ "" ∧
    (loadState 200 smFile smEmpty).keys = smEx.keys ∧
    (loadState 200 smFile smEmpty).connections = smEx.connections ∧
    (loadState 200 smFile smEmpty).preferences = smEx.preferences ∧
    (loadState 200 smFile smEmpty).cache = smEx.cache.filter
      (fun kv => kv.2.timestamp != 0 && decide (200 - kv.2.timestamp < maxCacheAge)) :=
  ⟨by decide, by decide,
   (C2_roundTrip smEx smEmpty 100 200 smFile (by decide) (by decide)).1,
   (C2_roundTrip smEx smEmpty 100 200 smFile (by decide) (by decide)).2.1,
   (C2_roundTrip smEx smEmpty 100 200 smFile (by decide) (by decide)).2.2.1,
   (C2_roundTrip smEx smEmpty 100 200 smFile (by decide) (by decide)).2.2.2⟩

/-! ### LoLDataService structural lemmas -/

theorem setConnectionState_fields (c : Bool) (r : String) (s : LoLState) :
    (setConnectionState c r s).isConnected = c ∧
    (setConnectionState c r s).endpointPollers = s.endpointPollers ∧
    (setConnectionState c r s).hasAxios = s.hasAxios ∧
    (setConnectionState c r s).dataCache = s.dataCache ∧
    (setConnectionState c r s).connectionAttempts = s.connectionAttempts ∧
    (setConnectionState c r s).attemptLog = s.attemptLog := by
  unfold setConnectionState
  by_cases h : s.isConnected ≠ c <;> simp [h]

theorem handleEndpointPoll_pollers (config : EndpointConfig) (now : Nat)
    (response : Option String) (s : LoLState) :
    (handleEndpointPoll config now response s).endpointPollers = s.endpointPollers := by
  unfold handleEndpointPoll handleGameStateChange
  cases response <;> dsimp only <;> split_ifs <;> rfl

theorem handleEndpointPoll_flags (config : EndpointConfig) (now : Nat)
    (response : Option String) (s : LoLState) :
    (handleEndpointPoll config now response s).isConnected = s.isConnected ∧
    (handleEndpointPoll config now response s).hasAxios = s.hasAxios := by
  unfold handleEndpointPoll handleGameStateChange
  cases response <;> dsimp only <;> split_ifs <;> exact ⟨rfl, rfl⟩

theorem handleEndpointPoll_none_dataCache (config : EndpointConfig) (now : Nat)
    (s : LoLState) :
    (handleEndpointPoll config now none s).dataCache = s.dataCache := by
  unfold handleEndpointPoll
  dsimp only
  split_ifs <;> rfl

theorem handleEndpointPoll_disconnected (config : EndpointConfig) (now : Nat)
    (response : Option String) (s : LoLState) (h : s.isConnected = false) :
    handleEndpointPoll config now response s = s := by
  unfold handleEndpointPoll
  simp [h]

theorem handleDisconnection_fields (s : LoLState) :
    (handleDisconnection s).isConnected = false ∧
    (handleDisconnection s).endpointPollers = [] ∧
    (handleDisconnection s).hasAxios = false ∧
    (handleDisconnection s).dataCache = s.dataCache := by
  unfold handleDisconnection resetConnectionDetails stopEndpointPolling
  obtain ⟨h1, h2, h3, h4, h5, h6⟩ := setConnectionState_fields false "League process stopped" s
  exact ⟨h1, rfl, rfl, h4⟩

theorem pollFold_pollers (oracle : String → Option String) (now : Nat)
    (l : List EndpointConfig) :
    ∀ s : LoLState,
      (l.foldl (pollOnce oracle now) s).endpointPollers =
        l.foldl (fun acc c => setA acc c.endpoint c.intervalMs) s.endpointPollers := by
  induction l with
  | nil => intro s; rfl
  | cons c cs ih =>
    intro s
    simp only [List.foldl_cons]
    rw [ih]
    have hp : (pollOnce oracle now s c).endpointPollers =
        setA s.endpointPollers c.endpoint c.intervalMs := by
      unfold pollOnce
      rw [handleEndpointPoll_pollers]
    rw [hp]

theorem pollFold_dataCache_none (now : Nat) (l : List EndpointConfig) :
    ∀ s : LoLState,
      (l.foldl (pollOnce (fun _ => none) now) s).dataCache = s.dataCache := by
  induction l with
  | nil => intro s; rfl
  | cons c cs ih =>
    intro s
    simp only [List.foldl_cons]
    rw [ih]
    unfold pollOnce
    rw [handleEndpointPoll_none_dataCache]

theorem pollersFromEmpty :
    endpointConfig.foldl (fun acc c => setA acc c.endpoint c.intervalMs) [] =
      endpointConfig.map (fun c => (c.endpoint, c.intervalMs)) := by decide

/-! ### C3: polling halts on disconnect; resumes after reconnect -/

/-- C3 (amended): on the transition to Disconnected every poll timer is
cleared and the connection handle discarded, and a poll tick on the
disconnected state is a complete no-op (its result is never applied);
after a successful reconnect polling resumes with *fresh timers* (one per
configured endpoint).  The data cache, however, is *not* fresh: it is
carried over unchanged across the disconnect, and entries not overwritten
by a new successful poll (here: all polls failing) survive the
reconnect. -/
theorem C3_haltAndResume (s : LoLState) :
    (handleDisconnection s).isConnected = false ∧
    (handleDisconnection s).endpointPollers = [] ∧
    (handleDisconnection s).hasAxios = false ∧
    (∀ config now response,
      handleEndpointPoll config now response (handleDisconnection s) = handleDisconnection s) ∧
    (handleDisconnection s).dataCache = s.dataCache ∧
    (∀ (oracle : String → Option String) (now : Nat),
      ((attemptConnection true oracle now (handleDisconnection s)).2).endpointPollers =
        endpointConfig.map (fun c => (c.endpoint, c.intervalMs))) ∧
    (∀ now : Nat,
      ((attemptConnection true (fun _ => none) now (handleDisconnection s)).2).dataCache =
        s.dataCache) := by
  obtain ⟨h1, h2, h3, h4⟩ := handleDisconnection_fields s
  refine ⟨h1, h2, h3, ?_, h4, ?_, ?_⟩
  · intro config now response
    exact handleEndpointPoll_disconnected config now response _ h1
  · intro oracle now
    unfold attemptConnection startEndpointPolling
    simp only [if_pos]
    rw [pollFold_pollers]
    obtain ⟨g1, g2, g3, g4, g5, g6⟩ :=
      setConnectionState_fields true "Connected successfully"
        { handleDisconnection s with
          attemptLog := (handleDisconnection s).attemptLog + 1, hasAxios := true }
    rw [g2]
    show endpointConfig.foldl _ (handleDisconnection s).endpointPollers = _
    rw [h2]
    exact pollersFromEmpty
  · intro now
    unfold attemptConnection startEndpointPolling
    simp only [if_pos]
    rw [pollFold_dataCache_none]
    obtain ⟨g1, g2, g3, g4, g5, g6⟩ :=
      setConnectionState_fields true "Connected successfully"
        { handleDisconnection s with
          attemptLog := (handleDisconnection s).attemptLog + 1, hasAxios := true }
    rw [g4]
    exact h4

/-- Counterexample to C3 as stated: starting from a connected service with
a stale `champselect` cache entry, disconnecting and then successfully
reconnecting (all initial polls failing) leaves the old cache entry in
place — polling does *not* resume with a fresh cache. -/
theorem C3_counterexample :
    (handleDisconnection lolStale).isConnected = false ∧
    (handleDisconnection lolStale).endpointPollers = [] ∧
    ((attemptConnection true (fun _ => none) 0 (handleDisconnection lolStale)).2).isConnected = true ∧
    ((attemptConnection true (fun _ => none) 0 (handleDisconnection lolStale)).2).dataCache =
      [("champselect", ("staleChampSelect", 5))] := by decide

/-! ### C4: exhausted reconnection attempts are never retried -/

/-- C4 (amended): once `connectionAttempts` has reached
`maxReconnectAttempts`, the service stays Disconnected and stops retrying;
and because the attempt counter is reset only by a *successful*
connection, a later liveness check that detects the client process running
again does **not** trigger a new connection attempt — `handleReconnection`
returns immediately and the state is completely unchanged. -/
theorem C4_exhaustedNoRetry (maxReconnectAttempts : Nat) (outcome : Bool)
    (oracle : String → Option String) (now : Nat) (s : LoLState)
    (hdisc : s.isConnected = false)
    (hexh : maxReconnectAttempts ≤ s.connectionAttempts) :
    handleProcessCheck maxReconnectAttempts true outcome oracle now s = s := by
  unfold handleProcessCheck handleReconnection
  simp [hdisc, hexh]

/-- Counterexample to C4 as stated: a disconnected service with its 5
attempts exhausted; the liveness check detects the process
(`isRunning = true`) and a connection would succeed (`outcome = true`),
yet no new connection attempt happens — the state (including the ghost
attempt counter, still 0) is unchanged. -/
theorem C4_counterexample :
    lolExhausted.isConnected = false ∧
    lolExhausted.connectionAttempts = 5 ∧
    lolExhausted.attemptLog = 0 ∧
    handleProcessCheck 5 true true (fun _ => none) 0 lolExhausted = lolExhausted := by decide

/-- Witness for C4 at the concrete exhausted state. -/
theorem C4_witness :
    lolExhausted.isConnected = false ∧ 5 ≤ lolExhausted.connectionAttempts ∧
    handleProcessCheck 5 true false (fun _ => none) 0 lolExhausted = lolExhausted :=
  ⟨by decide, by decide,
   C4_exhaustedNoRetry 5 false (fun _ => none) 0 lolExhausted (by decide) (by decide)⟩

/-! ### C7: gameStateChanged only on actual phase changes -/

theorem gameflowPoll_count (s : LoLState) (now : Nat) (phase : String)
    (h1 : s.isConnected = true) (h2 : s.hasAxios = true) :
    List.countP isGameEvent (handleEndpointPoll gameflowConfig now (some phase) s).events =
      List.countP isGameEvent s.events +
        (if (lookupA s.dataCache "gameflow").map (fun p => p.1) = some phase then 0 else 1) := by
  by_cases hprev : (lookupA s.dataCache "gameflow").map (fun p => p.1) = some phase
  · simp [handleEndpointPoll, handleGameStateChange, gameflowConfig, h1, h2, hprev,
      List.countP_append, isGameEvent]
  · simp only [handleEndpointPoll, gameflowConfig, h1, h2, Bool.and_self, if_true]
    simp only [handleGameStateChange]
    rw [if_pos (fun hh => hprev hh.symm)]
    simp [List.countP_append, isGameEvent, hprev]

theorem gameflowPoll_cache (s : LoLState) (now : Nat) (phase : String)
    (h1 : s.isConnected = true) (h2 : s.hasAxios = true) :
    (handleEndpointPoll gameflowConfig now (some phase) s).dataCache =
      setA s.dataCache "gameflow" (phase, now) := by
  simp only [handleEndpointPoll, handleGameStateChange, gameflowConfig, h1, h2,
    Bool.and_self, if_true]
  split_ifs <;> rfl

/-- C7 (amended): a successful poll of the game-phase endpoint emits
`gameStateChanged` iff the polled phase differs from the previously cached
phase — where an empty cache (`undefined` previous) counts as different,
so the very first poll also emits.  Consequently the poll sequence
ChampSelect, ChampSelect, InProgress produces exactly one event when the
cached phase is already "ChampSelect" (from an empty cache it produces
two: into ChampSelect and into InProgress). -/
theorem C7_gameStateChanged :
    (∀ (s : LoLState) (now : Nat) (phase : String),
      s.isConnected = true → s.hasAxios = true →
      List.countP isGameEvent (handleEndpointPoll gameflowConfig now (some phase) s).events =
        List.countP isGameEvent s.events +
          (if (lookupA s.dataCache "gameflow").map (fun p => p.1) = some phase then 0 else 1)) ∧
    (∀ (s : LoLState) (ts : Nat),
      s.isConnected = true → s.hasAxios = true →
      lookupA s.dataCache "gameflow" = some ("ChampSelect", ts) →
      List.countP isGameEvent
          (pollPhases ["ChampSelect", "ChampSelect", "InProgress"] s).events =
        List.countP isGameEvent s.events + 1) := by
  constructor
  · exact fun s now phase h1 h2 => gameflowPoll_count s now phase h1 h2
  · intro s ts h1 h2 hcache
    have hstep : pollPhases ["ChampSelect", "ChampSelect", "InProgress"] s =
        handleEndpointPoll gameflowConfig 0 (some "InProgress")
          (handleEndpointPoll gameflowConfig 0 (some "ChampSelect")
            (handleEndpointPoll gameflowConfig 0 (some "ChampSelect") s)) := rfl
    set s1 := handleEndpointPoll gameflowConfig 0 (some "ChampSelect") s with hs1
    set s2 := handleEndpointPoll gameflowConfig 0 (some "ChampSelect") s1 with hs2
    obtain ⟨f1c, f1a⟩ := handleEndpointPoll_flags gameflowConfig 0 (some "ChampSelect") s
    have h1c : s1.isConnected = true := by rw [hs1, f1c]; exact h1
    have h1a : s1.hasAxios = true := by rw [hs1, f1a]; exact h2
    obtain ⟨f2c, f2a⟩ := handleEndpointPoll_flags gameflowConfig 0 (some "ChampSelect") s1
    have h2c : s2.isConnected = true := by rw [hs2, f2c]; exact h1c
    have h2a : s2.hasAxios = true := by rw [hs2, f2a]; exact h1a
    have hc1 : lookupA s1.dataCache "gameflow" = some ("ChampSelect", 0) := by
      rw [hs1, gameflowPoll_cache s 0 "ChampSelect" h1 h2, lookupA_setA_self]
    have hc2 : lookupA s2.dataCache "gameflow" = some ("ChampSelect", 0) := by
      rw [hs2, gameflowPoll_cache s1 0 "ChampSelect" h1c h1a, lookupA_setA_self]
    rw [hstep]
    rw [gameflowPoll_count s2 0 "InProgress" h2c h2a]
    have e2 : List.countP isGameEvent s2.events = List.countP isGameEvent s1.events := by
      rw [hs2, gameflowPoll_count s1 0 "ChampSelect" h1c h1a, hc1]
      simp
    have e1 : List.countP isGameEvent s1.events = List.countP isGameEvent s.events := by
      rw [hs1, gameflowPoll_count s 0 "ChampSelect" h1 h2, hcache]
      simp
    rw [e2, e1, hc2]
    simp

/-- Counterexample to C7 as stated: from a freshly connected service with
an *empty* cache, the poll results ChampSelect, ChampSelect, InProgress
produce **two** `gameStateChanged` events (the first poll emits for the
transition from no cached phase into ChampSelect), not exactly one. -/
theorem C7_counterexample :
    lolConnected.dataCache = [] ∧
    List.countP isGameEvent
        (pollPhases ["ChampSelect", "ChampSelect", "InProgress"] lolConnected).events = 2 := by
  decide

/-- Witness for C7: a single differing poll on the empty-cache state emits
once, and the three-poll scenario from a cached "ChampSelect" emits
exactly once. -/
theorem C7_witness :
    (List.countP isGameEvent
        (handleEndpointPoll gameflowConfig 0 (some "InProgress") lolConnected).events =
      List.countP isGameEvent lolConnected.events +
        (if (lookupA lolConnected.dataCache "gameflow").map (fun p => p.1) =
            some "InProgress" then 0 else 1)) ∧
    (lookupA lolInChamp.dataCache "gameflow" = some ("ChampSelect", 7) ∧
      List.countP isGameEvent
          (pollPhases ["ChampSelect", "ChampSelect", "InProgress"] lolInChamp).events =
        List.countP isGameEvent lolInChamp.events + 1) :=
  ⟨C7_gameStateChanged.1 lolConnected 0 "InProgress" rfl rfl,
   ⟨by decide, C7_gameStateChanged.2 lolInChamp 7 rfl rfl (by decide)⟩⟩

/-! ### KeyService device lemmas (C8) -/

theorem lookupA_foldl_removeKey (l : List Str) :
    ∀ (s : KSState) (k : Str),
      lookupA ((l.foldl (fun t x => removeKey x t) s).activeKeys) k =
        if k ∈ l then none else lookupA s.activeKeys k := by
  induction l with
  | nil => intro s k; simp
  | cons x xs ih =>
    intro s k
    simp only [List.foldl_cons]
    rw [ih]
    by_cases hk : k = x
    · subst hk
      by_cases hmem : k ∈ xs <;>
        simp [hmem, removeKey, lookupA_removeA_self]
    · have hxk : x ≠ k := fun h => hk h.symm
      by_cases hmem : k ∈ xs <;>
        simp [hmem, hk, removeKey, lookupA_removeA_ne _ x k hxk]

theorem foldl_removeKey_events (l : List Str) :
    ∀ s : KSState, (l.foldl (fun t x => removeKey x t) s).events = s.events := by
  induction l with
  | nil => intro s; rfl
  | cons x xs ih => intro s; simp only [List.foldl_cons]; rw [ih]; rfl

theorem foldl_removeKey_devices (l : List Str) :
    ∀ s : KSState,
      (l.foldl (fun t x => removeKey x t) s).connectedDevices = s.connectedDevices := by
  induction l with
  | nil => intro s; rfl
  | cons x xs ih => intro s; simp only [List.foldl_cons]; rw [ih]; rfl

theorem mem_filterMapFst {α β : Type} [DecidableEq α] {l : List (α × β)} {k : α} {v : β}
    (pred : α × β → Bool) (hmem : (k, v) ∈ l) (hp : pred (k, v) = true) :
    k ∈ (l.filter pred).map (fun kv => kv.1) :=
  List.mem_map.mpr ⟨(k, v), List.mem_filter.mpr ⟨hmem, hp⟩, rfl⟩

theorem hDD_lookup_isSome {d : Str} {s : KSState} {k : Str}
    (h : (lookupA (handleDeviceDisconnection d s).activeKeys k).isSome = true) :
    (lookupA s.activeKeys k).isSome = true ∧ startsWithL (d ++ ['-']) k = false := by
  unfold handleDeviceDisconnection at h
  dsimp only at h
  rw [lookupA_foldl_removeKey] at h
  by_cases hmem : k ∈ (s.activeKeys.filter
      (fun kv => startsWithL (d ++ ['-']) kv.1)).map (fun kv => kv.1)
  · rw [if_pos hmem] at h
    exact absurd h (by simp)
  · rw [if_neg hmem] at h
    refine ⟨h, ?_⟩
    by_contra hsw
    have hsw' : startsWithL (d ++ ['-']) k = true := by
      cases hdec : startsWithL (d ++ ['-']) k
      · exact absurd hdec hsw
      · rfl
    obtain ⟨v, hv⟩ := Option.isSome_iff_exists.mp h
    exact hmem (mem_filterMapFst _ (lookupA_some_mem hv) hsw')

theorem hDD_events (d : Str) (s : KSState) :
    (handleDeviceDisconnection d s).events = s.events ++ [KSEvent.deviceDisconnected d] := by
  unfold handleDeviceDisconnection
  dsimp only
  rw [foldl_removeKey_events]

theorem hDD_devices (d : Str) (s : KSState) :
    (handleDeviceDisconnection d s).connectedDevices = s.connectedDevices := by
  unfold handleDeviceDisconnection
  dsimp only
  rw [foldl_removeKey_devices]

theorem discFold_devices (current : List Str) (olds : List Str) :
    ∀ s : KSState,
      ((olds.foldl (fun t d => if d ∈ current then t else handleDeviceDisconnection d t) s)).connectedDevices
        = s.connectedDevices := by
  induction olds with
  | nil => intro s; rfl
  | cons o os ih =>
    intro s
    simp only [List.foldl_cons]
    rw [ih]
    by_cases ho : o ∈ current
    · rw [if_pos ho]
    · rw [if_neg ho, hDD_devices]

theorem discFold_events_mono (current : List Str) (olds : List Str) :
    ∀ (s : KSState) (e : KSEvent), e ∈ s.events →
      e ∈ ((olds.foldl (fun t d => if d ∈ current then t else handleDeviceDisconnection d t) s)).events := by
  induction olds with
  | nil => intro s e he; exact he
  | cons o os ih =>
    intro s e he
    simp only [List.foldl_cons]
    apply ih
    by_cases ho : o ∈ current
    · rw [if_pos ho]; exact he
    · rw [if_neg ho, hDD_events]; exact List.mem_append_left _ he

theorem discFold_shrink (current : List Str) (olds : List Str) :
    ∀ (s : KSState) (k : Str),
      (lookupA ((olds.foldl (fun t d => if d ∈ current then t else handleDeviceDisconnection d t) s)).activeKeys k).isSome = true →
      (lookupA s.activeKeys k).isSome = true := by
  induction olds with
  | nil => intro s k h; exact h
  | cons o os ih =>
    intro s k h
    simp only [List.foldl_cons] at h
    have h2 := ih _ k h
    by_cases ho : o ∈ current
    · rwa [if_pos ho] at h2
    · rw [if_neg ho] at h2
      exact (hDD_lookup_isSome h2).1

theorem discFold_removes (current : List Str) (d : Str) (hdnc : d ∉ current) :
    ∀ (olds : List Str), d ∈ olds → ∀ s : KSState,
      KSEvent.deviceDisconnected d ∈
        ((olds.foldl (fun t x => if x ∈ current then t else handleDeviceDisconnection x t) s)).events ∧
      (∀ k, (lookupA ((olds.foldl (fun t x => if x ∈ current then t else handleDeviceDisconnection x t) s)).activeKeys k).isSome = true →
        startsWithL (d ++ ['-']) k = false) := by
  intro olds
  induction olds with
  | nil => intro hd; cases hd
  | cons o os ih =>
    intro hd s
    simp only [List.foldl_cons]
    rcases List.mem_cons.mp hd with heq | htl
    · subst heq
      rw [if_neg hdnc]
      constructor
      · apply discFold_events_mono
        rw [hDD_events]
        exact List.mem_append_right _ (by simp)
      · intro k hk
        have hk0 := discFold_shrink current os _ k hk
        exact (hDD_lookup_isSome hk0).2
    · exact ih htl _

theorem addSet_mem (l : List Str) (x y : Str) : y ∈ addSet l x ↔ y ∈ l ∨ y = x := by
  unfold addSet
  by_cases h : x ∈ l
  · rw [if_pos h]
    constructor
    · exact Or.inl
    · rintro (hy | rfl)
      · exact hy
      · exact h
  · rw [if_neg h]
    simp

theorem extractFold_mem (oldDevices : List Str) (devices : List Device) :
    ∀ (acc : List Str × List KSEvent) (x : Str),
      (x ∈ (devices.foldl
        (fun acc device =>
          match device.serialNumber with
          | some sn =>
            if sn ≠ [] then
              (addSet acc.1 sn,
               if sn ∈ oldDevices then acc.2 else acc.2 ++ [KSEvent.deviceConnected sn])
            else acc
          | none => acc)
        acc).1) ↔
      (x ∈ acc.1 ∨ ∃ dev ∈ devices, dev.serialNumber = some x ∧ x ≠ []) := by
  induction devices with
  | nil => intro acc x; simp
  | cons dev devs ih =>
    intro acc x
    simp only [List.foldl_cons]
    rw [ih]
    cases hsn : dev.serialNumber with
    | none =>
      simp only [hsn]
      constructor
      · rintro (ha | hex)
        · exact Or.inl ha
        · obtain ⟨d0, hd0, hp⟩ := hex
          exact Or.inr ⟨d0, List.mem_cons_of_mem _ hd0, hp⟩
      · rintro (ha | hex)
        · exact Or.inl ha
        · obtain ⟨d0, hd0, hp⟩ := hex
          rcases List.mem_cons.mp hd0 with rfl | htl
          · rw [hsn] at hp
            exact absurd hp.1 (by simp)
          · exact Or.inr ⟨d0, htl, hp⟩
    | some sn =>
      by_cases hne : sn = []
      · subst hne
        simp only [hsn, ne_eq, not_true_eq_false, if_false]
        constructor
        · rintro (ha | hex)
          · exact Or.inl ha
          · obtain ⟨d0, hd0, hp⟩ := hex
            exact Or.inr ⟨d0, List.mem_cons_of_mem _ hd0, hp⟩
        · rintro (ha | hex)
          · exact Or.inl ha
          · obtain ⟨d0, hd0, hp⟩ := hex
            rcases List.mem_cons.mp hd0 with rfl | htl
            · rw [hsn] at hp
              have hx : x = [] := by
                have := hp.1
                simp at this
                exact this
              exact absurd hx hp.2
            · exact Or.inr ⟨d0, htl, hp⟩
      · simp only [hsn, ne_eq, hne, not_false_eq_true, if_true]
        constructor
        · rintro (ha | hex)
          · rcases (addSet_mem acc.1 sn x).mp ha with hy | rfl
            · exact Or.inl hy
            · exact Or.inr ⟨dev, List.mem_cons_self _ _, hsn, hne⟩
          · obtain ⟨d0, hd0, hp⟩ := hex
            exact Or.inr ⟨d0, List.mem_cons_of_mem _ hd0, hp⟩
        · rintro (ha | hex)
          · exact Or.inl ((addSet_mem acc.1 sn x).mpr (Or.inl ha))
          · obtain ⟨d0, hd0, hp⟩ := hex
            rcases List.mem_cons.mp hd0 with rfl | htl
            · rw [hsn] at hp
              have hx : sn = x := by
                have := hp.1
                simpa using this
              exact Or.inl ((addSet_mem acc.1 sn x).mpr (Or.inr hx.symm))
            · exact Or.inr ⟨d0, htl, hp⟩

theorem extractDevices_mem (oldDevices : List Str) (report : Option (List Device)) (x : Str) :
    x ∈ (extractDevices oldDevices report).1 ↔ reportedSerial report x := by
  cases report with
  | none => simp [extractDevices, reportedSerial]
  | some devices =>
    unfold extractDevices reportedSerial
    rw [extractFold_mem]
    simp

/-! ### C8: device-status reconciliation -/

/-- C8: on any `handleDeviceStatus` report — a non-array (`none`) or an
array missing a previously connected device — every previously connected
device absent from the report is disconnected: a `deviceDisconnected`
event is emitted for it and no active key with its `serial-` id remains;
the connected-device set afterwards contains exactly the (truthy) serial
numbers present in the report; device entries lacking a serial number are
ignored. -/
theorem C8_deviceStatus (report : Option (List Device)) (s : KSState) (d : Str)
    (hconn : d ∈ s.connectedDevices)
    (hmiss : ¬ reportedSerial report d) :
    (∀ x, x ∈ (handleDeviceStatus report s).connectedDevices ↔ reportedSerial report x) ∧
    KSEvent.deviceDisconnected d ∈ (handleDeviceStatus report s).events ∧
    (∀ k, (lookupA (handleDeviceStatus report s).activeKeys k).isSome = true →
      startsWithL (d ++ ['-']) k = false) := by
  have hdnc : d ∉ (extractDevices s.connectedDevices report).1 :=
    fun h => hmiss ((extractDevices_mem _ _ _).mp h)
  have hmain := discFold_removes (extractDevices s.connectedDevices report).1 d hdnc
    s.connectedDevices hconn
    { s with events := s.events ++ (extractDevices s.connectedDevices report).2 }
  unfold handleDeviceStatus
  dsimp only
  exact ⟨fun x => extractDevices_mem s.connectedDevices report x, hmain.1, hmain.2⟩

/-- Witness for C8: device `S` is connected with key `S-k` registered; a
non-array report disconnects it. -/
theorem C8_witness :
    (sSerial ∈ ksStart.connectedDevices) ∧ (¬ reportedSerial none sSerial) ∧
    (∀ x, x ∈ (handleDeviceStatus none ksStart).connectedDevices ↔ reportedSerial none x) ∧
    KSEvent.deviceDisconnected sSerial ∈ (handleDeviceStatus none ksStart).events ∧
    (∀ k, (lookupA (handleDeviceStatus none ksStart).activeKeys k).isSome = true →
      startsWithL (sSerial ++ ['-']) k = false) := by
  have h := C8_deviceStatus none ksStart sSerial (by decide) (fun hh => hh)
  exact ⟨by decide, fun hh => hh, h.1, h.2.1, h.2.2⟩

/-! ### C5: retry with linear backoff, then failed, then swept -/

theorem filterMap_id_map_some {α β : Type} (f : α → β) (l : List α) :
    (l.map (fun a => some (f a))).filterMap id = l.map f := by
  induction l with
  | nil => rfl
  | cons a as ih => simp [ih]

theorem iterate_add (opts : KSOptions) (keyId msg : Str) :
    ∀ (a b : Nat) (s : KSState),
      iterateFailures opts keyId msg (a + b) s =
        ((iterateFailures opts keyId msg b (iterateFailures opts keyId msg a s).1).1,
         (iterateFailures opts keyId msg a s).2 ++
           (iterateFailures opts keyId msg b (iterateFailures opts keyId msg a s).1).2) := by
  intro a
  induction a with
  | zero =>
    intro b s
    simp [iterateFailures]
  | succ k ih =>
    intro b s
    have h1 : k + 1 + b = (k + b) + 1 := by omega
    rw [h1]
    simp only [iterateFailures]
    rw [ih]
    simp

theorem iterate_sched (opts : KSOptions) (keyId msg : Str) (kd : KeyData)
    (hterm : isTerminalMsg msg = false) :
    ∀ (n c : Nat) (s : KSState),
      (lookupA s.errorCounts keyId).getD 0 = c →
      lookupA s.activeKeys keyId = some kd →
      c + n ≤ opts.maxRetries →
      (iterateFailures opts keyId msg n s).2 =
          (List.range n).map (fun i => some (opts.retryDelay * (c + i + 1))) ∧
      (lookupA ((iterateFailures opts keyId msg n s).1).errorCounts keyId).getD 0 = c + n ∧
      ((iterateFailures opts keyId msg n s).1).activeKeys = s.activeKeys := by
  intro n
  induction n with
  | zero =>
    intro c s hc hk hle
    exact ⟨rfl, by simpa using hc, rfl⟩
  | succ m ih =>
    intro c s hc hk hle
    have hstep : handleKeyError opts keyId msg s =
        ({ s with errorCounts := setA s.errorCounts keyId (c + 1) },
         some (opts.retryDelay * (c + 1))) := by
      unfold handleKeyError
      dsimp only
      rw [hc, hk]
      dsimp only
      rw [if_neg (by rw [hterm]; exact Bool.false_ne_true)]
      rw [if_pos (by omega)]
    have hiter : iterateFailures opts keyId msg (m + 1) s =
        ((iterateFailures opts keyId msg m (handleKeyError opts keyId msg s).1).1,
         (handleKeyError opts keyId msg s).2 ::
           (iterateFailures opts keyId msg m (handleKeyError opts keyId msg s).1).2) := rfl
    have hc' : (lookupA ({ s with errorCounts := setA s.errorCounts keyId (c + 1) } : KSState).errorCounts keyId).getD 0 = c + 1 := by
      simp [lookupA_setA_self]
    have hk' : lookupA ({ s with errorCounts := setA s.errorCounts keyId (c + 1) } : KSState).activeKeys keyId = some kd := hk
    have hle' : (c + 1) + m ≤ opts.maxRetries := by omega
    obtain ⟨ihd, ihc, ihk⟩ := ih (c + 1) _ hc' hk' hle'
    refine ⟨?_, ?_, ?_⟩
    · rw [hiter, hstep]
      dsimp only
      rw [ihd]
      rw [List.range_succ_eq_map, List.map_cons, List.map_map]
      congr 1
      apply List.map_congr_left
      intro i _
      simp only [Function.comp]
      have h2 : c + 1 + i + 1 = c + (i + 1) + 1 := by omega
      rw [h2]
    · rw [hiter, hstep]
      dsimp only
      rw [ihc]
      omega
    · rw [hiter, hstep]
      dsimp only
      rw [ihk]

/-- C5: a widget whose draw calls keep failing with a transient error is
retried exactly `maxRetries` times, the `n`-th retry scheduled after
`retryDelay * n` (strictly increasing when `retryDelay > 0`); the failure
after that marks the widget `failed` and schedules nothing more, and the
next cleanup sweep removes the widget. -/
theorem C5_retryBackoff (opts : KSOptions) (keyId msg : Str) (kd : KeyData)
    (s : KSState) (now : Nat)
    (hterm : isTerminalMsg msg = false)
    (hec : lookupA s.errorCounts keyId = none)
    (hkd : lookupA s.activeKeys keyId = some kd)
    (hdelay : 0 < opts.retryDelay) :
    (iterateFailures opts keyId msg (opts.maxRetries + 1) s).2 =
      (List.range opts.maxRetries).map (fun i => some (opts.retryDelay * (i + 1))) ++ [none] ∧
    List.Pairwise (fun a b => a < b)
      (((iterateFailures opts keyId msg (opts.maxRetries + 1) s).2).filterMap id) ∧
    lookupA ((iterateFailures opts keyId msg (opts.maxRetries + 1) s).1).activeKeys keyId =
      some { kd with state := LifeState.failed } ∧
    lookupA (performCleanup now
        (iterateFailures opts keyId msg (opts.maxRetries + 1) s).1).activeKeys keyId = none := by
  obtain ⟨hd2, hcount, hkeys⟩ := iterate_sched opts keyId msg kd hterm opts.maxRetries 0 s
    (by rw [hec]; rfl) hkd (by omega)
  simp only [Nat.zero_add] at hd2 hcount
  have hkmid : lookupA ((iterateFailures opts keyId msg opts.maxRetries s).1).activeKeys keyId
      = some kd := by rw [hkeys]; exact hkd
  have hstep : handleKeyError opts keyId msg (iterateFailures opts keyId msg opts.maxRetries s).1 =
      ({ (iterateFailures opts keyId msg opts.maxRetries s).1 with
          errorCounts := setA ((iterateFailures opts keyId msg opts.maxRetries s).1).errorCounts
            keyId (opts.maxRetries + 1)
          activeKeys := setA ((iterateFailures opts keyId msg opts.maxRetries s).1).activeKeys
            keyId { kd with state := LifeState.failed } }, none) := by
    unfold handleKeyError
    dsimp only
    rw [hcount, hkmid]
    dsimp only
    rw [if_neg (by rw [hterm]; exact Bool.false_ne_true)]
    rw [if_neg (by omega)]
  have hsplit := iterate_add opts keyId msg opts.maxRetries 1 s
  have hone : iterateFailures opts keyId msg 1 (iterateFailures opts keyId msg opts.maxRetries s).1 =
      ((handleKeyError opts keyId msg (iterateFailures opts keyId msg opts.maxRetries s).1).1,
       [(handleKeyError opts keyId msg (iterateFailures opts keyId msg opts.maxRetries s).1).2]) := rfl
  rw [hone, hstep] at hsplit
  dsimp only at hsplit
  have hfinal1 : (iterateFailures opts keyId msg (opts.maxRetries + 1) s).2 =
      (List.range opts.maxRetries).map (fun i => some (opts.retryDelay * (i + 1))) ++ [none] := by
    rw [hsplit]
    dsimp only
    rw [hd2]
  have hfinalA : lookupA ((iterateFailures opts keyId msg (opts.maxRetries + 1) s).1).activeKeys keyId
      = some { kd with state := LifeState.failed } := by
    rw [hsplit]
    dsimp only
    exact lookupA_setA_self _ _ _
  refine ⟨hfinal1, ?_, hfinalA, ?_⟩
  · rw [hfinal1]
    have hfm : (((List.range opts.maxRetries).map
          (fun i => some (opts.retryDelay * (i + 1)))) ++ [none]).filterMap id =
        (List.range opts.maxRetries).map (fun i => opts.retryDelay * (i + 1)) := by
      rw [List.filterMap_append, filterMap_id_map_some]
      simp
    rw [hfm]
    refine List.Pairwise.map _ ?_ (List.pairwise_lt_range opts.maxRetries)
    intro a b hab
    exact mul_lt_mul_of_pos_left (by omega) hdelay
  · obtain ⟨v, hv⟩ : ∃ v, lookupA ((iterateFailures opts keyId msg (opts.maxRetries + 1) s).1).activeKeys keyId = some v :=
      ⟨_, hfinalA⟩
    have hmem : keyId ∈ ((((iterateFailures opts keyId msg (opts.maxRetries + 1) s).1).activeKeys.filter
        (fun kv => kv.2.state = LifeState.dead ∨ kv.2.state = LifeState.failed)).map (fun kv => kv.1)) := by
      apply mem_filterMapFst _ (lookupA_some_mem hfinalA)
      simp
    unfold performCleanup
    dsimp only
    rw [lookupA_foldl_removeKey]
    rw [if_pos hmem]

/-- Witness for C5 at the default options (maxRetries 3, retryDelay
1000ms) on the registered key `S-k` with the transient message `"x"`:
retries scheduled at 1000, 2000, 3000 ms, then `failed` and swept. -/
theorem C5_witness :
    isTerminalMsg ['x'] = false ∧
    lookupA ksStart.errorCounts ksKeyId = none ∧
    lookupA ksStart.activeKeys ksKeyId = some ⟨sSerial, kUid, LifeState.inactive, none, 0⟩ ∧
    0 < defaultKSOptions.retryDelay ∧
    (iterateFailures defaultKSOptions ksKeyId ['x'] (defaultKSOptions.maxRetries + 1) ksStart).2 =
      (List.range defaultKSOptions.maxRetries).map
        (fun i => some (defaultKSOptions.retryDelay * (i + 1))) ++ [none] ∧
    lookupA ((iterateFailures defaultKSOptions ksKeyId ['x']
        (defaultKSOptions.maxRetries + 1) ksStart).1).activeKeys ksKeyId =
      some ⟨sSerial, kUid, LifeState.failed, none, 0⟩ ∧
    lookupA (performCleanup 0 (iterateFailures defaultKSOptions ksKeyId ['x']
        (defaultKSOptions.maxRetries + 1) ksStart).1).activeKeys ksKeyId = none := by
  have h := C5_retryBackoff defaultKSOptions ksKeyId ['x']
    ⟨sSerial, kUid, LifeState.inactive, none, 0⟩ ksStart 0
    (by decide) (by decide) (by decide) (by decide)
  exact ⟨by decide, by decide, by decide, by decide, h.1, h.2.2.1, h.2.2.2⟩

/-! ### C1: throttling and render coalescing -/

theorem queueRender_throttled (opts : KSOptions) (r : Option Str) (keyId : Str)
    (t0 now p : Nat) (s : KSState)
    (hlast : lookupA s.lastRenderTime keyId = some t0)
    (h0 : t0 ≤ now) (hw : now < t0 + opts.throttleInterval) :
    queueRender opts r now keyId p s =
      (true, { s with
        renderQueue := setA s.renderQueue keyId ⟨some (t0 + opts.throttleInterval), p⟩ }) := by
  have hd : getThrottleDelay opts now keyId s = opts.throttleInterval - (now - t0) := by
    unfold getThrottleDelay
    rw [hlast]
  have hdpos : 0 < opts.throttleInterval - (now - t0) := by omega
  have harith : now + (opts.throttleInterval - (now - t0)) = t0 + opts.throttleInterval := by
    omega
  unfold queueRender
  dsimp only
  rw [hd, if_pos hdpos, harith]

/-- C1 (amended): a render request arriving through `updateKey` while the
widget's last render is less than `throttleInterval` ago is *dropped* —
`updateKey` returns `false` with the state untouched, scheduling nothing.
The schedule-later / latest-wins behaviour holds one level down, at
`queueRender`: a request inside the throttle window is scheduled to fire
`throttleInterval - elapsed` later (at `lastRender + throttleInterval`),
a second request within the window replaces the pending task and its
payload, and when the timer fires exactly one render executes, carrying
the later payload. -/
theorem C1_throttleCoalesce (opts : KSOptions) :
    (∀ (drawResult : Option Str) (now : Nat) (serialNumber keyUid : Str) (data : Nat)
        (s : KSState),
      serialNumber ∈ s.connectedDevices →
      (lookupA s.activeKeys (keyIdOf serialNumber keyUid)).isSome = true →
      isThrottled opts now (keyIdOf serialNumber keyUid) s = true →
      updateKey opts drawResult now serialNumber keyUid data s = (false, s)) ∧
    (∀ (r1 r2 : Option Str) (keyId : Str) (t0 n1 n2 p1 p2 : Nat) (s : KSState),
      lookupA s.lastRenderTime keyId = some t0 →
      t0 ≤ n1 → n1 ≤ n2 → n2 < t0 + opts.throttleInterval →
      lookupA ((queueRender opts r1 n1 keyId p1 s).2).renderQueue keyId =
          some ⟨some (t0 + opts.throttleInterval), p1⟩ ∧
      ((queueRender opts r1 n1 keyId p1 s).2).renders = s.renders ∧
      lookupA ((queueRender opts r2 n2 keyId p2
          (queueRender opts r1 n1 keyId p1 s).2).2).renderQueue keyId =
        some ⟨some (t0 + opts.throttleInterval), p2⟩ ∧
      ((queueRender opts r2 n2 keyId p2
          (queueRender opts r1 n1 keyId p1 s).2).2).renders = s.renders ∧
      (fireTimer none keyId ((queueRender opts r2 n2 keyId p2
          (queueRender opts r1 n1 keyId p1 s).2).2)).renders =
        s.renders ++ [(t0 + opts.throttleInterval, keyId, p2)]) := by
  constructor
  · intro drawResult now serialNumber keyUid data s hc hk hthr
    obtain ⟨kd, hkd⟩ := Option.isSome_iff_exists.mp hk
    unfold updateKey
    dsimp only
    rw [if_pos hc, hkd]
    dsimp only
    rw [if_pos hthr]
  · intro r1 r2 keyId t0 n1 n2 p1 p2 s hlast h01 h12 h2w
    have hq1 := queueRender_throttled opts r1 keyId t0 n1 p1 s hlast h01 (by omega)
    have hlast1 : lookupA ((queueRender opts r1 n1 keyId p1 s).2).lastRenderTime keyId
        = some t0 := by
      rw [hq1]
      exact hlast
    have hq2 := queueRender_throttled opts r2 keyId t0 n2 p2
      (queueRender opts r1 n1 keyId p1 s).2 hlast1 (by omega) h2w
    have hlook1 : lookupA ((queueRender opts r1 n1 keyId p1 s).2).renderQueue keyId =
        some ⟨some (t0 + opts.throttleInterval), p1⟩ := by
      rw [hq1]
      exact lookupA_setA_self _ _ _
    have hren1 : ((queueRender opts r1 n1 keyId p1 s).2).renders = s.renders := by
      rw [hq1]
    have hlook2 : lookupA ((queueRender opts r2 n2 keyId p2
        (queueRender opts r1 n1 keyId p1 s).2).2).renderQueue keyId =
        some ⟨some (t0 + opts.throttleInterval), p2⟩ := by
      rw [hq2]
      exact lookupA_setA_self _ _ _
    have hren2 : ((queueRender opts r2 n2 keyId p2
        (queueRender opts r1 n1 keyId p1 s).2).2).renders = s.renders := by
      rw [hq2]
      dsimp only
      exact hren1
    refine ⟨hlook1, hren1, hlook2, hren2, ?_⟩
    unfold fireTimer
    rw [hlook2]
    dsimp only
    unfold executeRender
    dsimp only
    rw [hren2]

/-- Counterexample to C1 as stated: payload 1 renders at t=0; a second
update for the same widget with payload 2 arrives at t=50, inside the
100 ms throttle window.  The claim predicts the request is scheduled
`throttleInterval - elapsed` later and that exactly one render executes
carrying the *later* payload.  In the code `updateKey` drops the
throttled request: it returns `false` with the state unchanged, nothing
is scheduled (the only queue entry carries no pending timer), and the
single executed render carries payload 1, the *earlier* one. -/
theorem C1_counterexample :
    (updateKey defaultKSOptions none 0 sSerial kUid 1 ksStart).1 = true ∧
    ks1.renders = [(0, ksKeyId, 1)] ∧
    updateKey defaultKSOptions none 50 sSerial kUid 2 ks1 = (false, ks1) ∧
    lookupA ks1.renderQueue ksKeyId = some ⟨none, 1⟩ := by decide

/-- Witness for C1 at the default options: the throttled `updateKey` at
t=50 is dropped, and two direct `queueRender` requests at t=30 and t=60
coalesce into one render at t=100 with the later payload. -/
theorem C1_witness :
    (sSerial ∈ ks1.connectedDevices ∧
      (lookupA ks1.activeKeys ksKeyId).isSome = true ∧
      isThrottled defaultKSOptions 50 ksKeyId ks1 = true ∧
      updateKey defaultKSOptions none 50 sSerial kUid 2 ks1 = (false, ks1)) ∧
    (lookupA ks1.lastRenderTime ksKeyId = some 0 ∧
      lookupA ((queueRender defaultKSOptions none 30 ksKeyId 7 ks1).2).renderQueue ksKeyId =
        some ⟨some (0 + defaultKSOptions.throttleInterval), 7⟩ ∧
      lookupA ((queueRender defaultKSOptions none 60 ksKeyId 8
          (queueRender defaultKSOptions none 30 ksKeyId 7 ks1).2).2).renderQueue ksKeyId =
        some ⟨some (0 + defaultKSOptions.throttleInterval), 8⟩ ∧
      (fireTimer none ksKeyId ((queueRender defaultKSOptions none 60 ksKeyId 8
          (queueRender defaultKSOptions none 30 ksKeyId 7 ks1).2).2)).renders =
        ks1.renders ++ [(0 + defaultKSOptions.throttleInterval, ksKeyId, 8)]) := by
  have h := C1_throttleCoalesce defaultKSOptions
  have h2 := h.2 none none ksKeyId 0 30 60 7 8 ks1 (by decide) (by decide) (by decide) (by decide)
  exact ⟨⟨by decide, by decide, by decide,
      h.1 none 50 sSerial kUid 2 ks1 (by decide) (by decide) (by decide)⟩,
    ⟨by decide, h2.1, h2.2.2.1, h2.2.2.2.2⟩⟩

end Spec2Proof
